import Mathlib

/-!
Verification of the Canadian Ability Grant Advisor chat client.

The development shallowly embeds the core logic of `src/App.tsx` and
`src/services/geminiService.ts`:

* the two line-oriented extraction heuristics (`parseOptionsFromText`,
  `parseMultiQuestions`) including the exact backtracking semantics of the
  JavaScript regular expressions they use,
* the quick-reply generator `getQuickReplies`,
* the exchange controller (`handleSendWithText` / `handleSend`), modelled as a
  pure state transformer over the component state, with the stream delivered as
  an explicit list of fragments and teardown modelled by the index after which
  `isMountedRef.current` is false,
* the retry handler `handleRetry`.

Strings are modelled as Lean `String`/`List Char`; times as `Nat` (JavaScript
`Date.now()` differences; `Nat` truncated subtraction agrees with the JS guard
`now - last < 1000`, which also drops submissions when `now < last`).
-/

/-! ### JavaScript character classes and string primitives -/

/-- The JavaScript `\s` class (also the set trimmed by `String.prototype.trim`). -/
def jsWs (c : Char) : Bool :=
  let n := c.toNat
  n = 0x20 || n = 0x9 || n = 0xa || n = 0xb || n = 0xc || n = 0xd ||
  n = 0xa0 || n = 0x1680 || (0x2000 ≤ n && n ≤ 0x200a) ||
  n = 0x2028 || n = 0x2029 || n = 0x202f || n = 0x205f || n = 0x3000 || n = 0xfeff

/-- The JavaScript `.` class (any character except a line terminator). -/
def jsDot (c : Char) : Bool :=
  let n := c.toNat
  !(n = 0xa || n = 0xd || n = 0x2028 || n = 0x2029)

/-- The class `[.):\s]` used between the list number and the label. -/
def isSep (c : Char) : Bool :=
  c = '.' || c = ')' || c = ':' || jsWs c

/-- The class `[-–:]` of trailing separators. -/
def isDash (c : Char) : Bool :=
  c = '-' || c = '–' || c = ':'

/-- A literal asterisk (for the optional `\*?` emphasis markers). -/
def isStar (c : Char) : Bool :=
  c = '*'

/-- Drop leading JavaScript whitespace. -/
def dropLeadingWs : List Char → List Char
  | [] => []
  | c :: rest => if jsWs c then dropLeadingWs rest else c :: rest

/-- Drop trailing JavaScript whitespace. -/
def dropTrailingWs (s : List Char) : List Char :=
  (dropLeadingWs s.reverse).reverse

/-- `String.prototype.trim`. -/
def jsTrim (s : List Char) : List Char :=
  dropTrailingWs (dropLeadingWs s)

/-- `text.replace(/\*\*/g, '')`: remove every non-overlapping occurrence of
`**`, scanning left to right without re-examining already-produced output. -/
def stripStarStar : List Char → List Char
  | '*' :: '*' :: rest => stripStarStar rest
  | c :: rest => c :: stripStarStar rest
  | [] => []

/-- `label.replace(/\s*[-–:]\s*$/, '')`: if, after the trailing whitespace, the
string ends with a single dash/colon, remove that character together with the
whitespace on both sides of it; otherwise leave the string unchanged (the
mandatory `[-–:]` makes the pattern fail to match). -/
def removeDashTrailer (s : List Char) : List Char :=
  let t := dropTrailingWs s
  match t.reverse with
  | [] => s
  | c :: restRev => if isDash c then dropTrailingWs restRev.reverse else s

/-- `text.split('\n')` (keeps empty segments, including a trailing one). -/
def splitLinesAux (acc : List Char) : List Char → List (List Char)
  | [] => [acc.reverse]
  | c :: rest =>
    if c = '\n' then acc.reverse :: splitLinesAux [] rest
    else splitLinesAux (c :: acc) rest

/-- `text.split('\n')` on the character list of a string. -/
def splitLines (s : List Char) : List (List Char) :=
  splitLinesAux [] s

/-- `startsWith pat s`: `pat` is a prefix of `s`. -/
def startsWith : List Char → List Char → Bool
  | [], _ => true
  | _ :: _, [] => false
  | a :: as, b :: bs => a = b && startsWith as bs

/-- `s.includes(pat)` on character lists. -/
def hasSubstr : List Char → List Char → Bool
  | pat, [] => pat.isEmpty
  | pat, c :: rest => startsWith pat (c :: rest) || hasSubstr pat rest

/-- `s.includes(pat)` on strings. -/
def jsIncludes (s pat : String) : Bool :=
  hasSubstr pat.data s.data

/-- `s.toLowerCase()` (ASCII range; every character appearing in the source's
keyword tests is ASCII). -/
def lowerStr (s : String) : String :=
  ⟨s.data.map Char.toLower⟩

/-! ### A small backtracking regex engine

Exactly the combinators needed by the two source patterns: single-character
classes, greedy `?`/`*`/`+` and lazy `+?` over classes, sequencing, prioritized
alternation, capture groups and the end anchor.  The engine explores choices in
the same order as the JavaScript engine (greedy: longest first; lazy: shortest
first; alternation: left first), returning the captures of the first successful
parse, so it computes exactly the match and groups `String.prototype.match`
yields for these patterns. -/

inductive RE where
  | eps : RE
  | eos : RE
  | cls : (Char → Bool) → RE
  | optCls : (Char → Bool) → RE
  | starCls : (Char → Bool) → RE
  | plusCls : (Char → Bool) → RE
  | lazyPlusCls : (Char → Bool) → RE
  | seq : RE → RE → RE
  | alt : RE → RE → RE
  | grp : Nat → RE → RE

/-- Captured groups: group index paired with the consumed characters. -/
def Caps := List (Nat × List Char)

/-- Length of the maximal prefix run of characters satisfying `p`. -/
def runLen (p : Char → Bool) : List Char → Nat
  | [] => 0
  | c :: rest => if p c then runLen p rest + 1 else 0

/-- Try the continuation after dropping each candidate count in turn. -/
def tryDrops (s : List Char) (k : List Char → Option Caps) : List Nat → Option Caps
  | [] => none
  | n :: rest =>
    match k (s.drop n) with
    | some r => some r
    | none => tryDrops s k rest

/-- The backtracking matcher, in continuation-passing style.  The continuation
receives the remaining input and the captures recorded so far. -/
def reMatch (re : RE) (s : List Char) (caps : Caps)
    (k : List Char → Caps → Option Caps) : Option Caps :=
  match re with
  | .eps => k s caps
  | .eos => if s.isEmpty then k s caps else none
  | .cls p =>
    match s with
    | [] => none
    | c :: rest => if p c then k rest caps else none
  | .optCls p =>
    match s with
    | [] => k s caps
    | c :: rest =>
      if p c then
        match k rest caps with
        | some r => some r
        | none => k s caps
      else k s caps
  | .starCls p =>
    tryDrops s (fun s2 => k s2 caps) ((List.range (runLen p s + 1)).reverse)
  | .plusCls p =>
    tryDrops s (fun s2 => k s2 caps) (((List.range (runLen p s)).map (· + 1)).reverse)
  | .lazyPlusCls p =>
    tryDrops s (fun s2 => k s2 caps) ((List.range (runLen p s)).map (· + 1))
  | .seq a b => reMatch a s caps (fun s2 caps2 => reMatch b s2 caps2 k)
  | .alt a b =>
    match reMatch a s caps k with
    | some r => some r
    | none => reMatch b s caps k
  | .grp n a =>
    reMatch a s caps (fun s2 caps2 => k s2 ((n, s.take (s.length - s2.length)) :: caps2))

/-- Run an (implicitly `^`-anchored) pattern against the whole line; any
remaining input after the pattern is ignored, as in `String.prototype.match`. -/
def reFind (re : RE) (s : List Char) : Option Caps :=
  reMatch re s [] (fun _ caps => some caps)

/-- Look up a captured group. -/
def getCap (caps : Caps) (n : Nat) : Option (List Char) :=
  (List.find? (fun q => q.1 = n) caps).map (fun q => q.2)

/-! ### The two source patterns -/

/-- `/^\s*\*?\*?(\d+)[.):\s]+\*?\*?\s*(.+?)(?:\*?\*?\s*[-–:]|$)/`
(from `parseOptionsFromText`, `src/App.tsx` line 146). -/
def optionRE : RE :=
  .seq (.starCls jsWs) <| .seq (.optCls isStar) <| .seq (.optCls isStar) <|
  .seq (.grp 1 (.plusCls Char.isDigit)) <| .seq (.plusCls isSep) <|
  .seq (.optCls isStar) <| .seq (.optCls isStar) <| .seq (.starCls jsWs) <|
  .seq (.grp 2 (.lazyPlusCls jsDot)) <|
  .alt (.seq (.optCls isStar) (.seq (.optCls isStar) (.seq (.starCls jsWs) (.cls isDash)))) .eos

/-- `/^\s*\*?\*?(\d+)[.):\s]+\*?\*?\s*(.+\?)\s*$/`
(from `parseMultiQuestions`, `src/App.tsx` line 171). -/
def questionRE : RE :=
  .seq (.starCls jsWs) <| .seq (.optCls isStar) <| .seq (.optCls isStar) <|
  .seq (.grp 1 (.plusCls Char.isDigit)) <| .seq (.plusCls isSep) <|
  .seq (.optCls isStar) <| .seq (.optCls isStar) <| .seq (.starCls jsWs) <|
  .seq (.grp 2 (.seq (.plusCls jsDot) (.cls (fun c => c = '?')))) <|
  .seq (.starCls jsWs) .eos

/-! ### Structured-content extraction (`src/App.tsx` lines 139-192) -/

structure QuickOption where
  id : String
  label : String
  value : String
deriving DecidableEq

inductive Answer where
  | yes : Answer
  | no : Answer
  | unset : Answer
deriving DecidableEq

structure QuestionAnswer where
  questionId : String
  questionText : String
  answer : Answer
deriving DecidableEq

/-- The option regex match on one line, returning the two groups
(`match[1]`, `match[2]`). -/
def optionLineMatch (line : List Char) : Option (List Char × List Char) :=
  match reFind optionRE line with
  | none => none
  | some caps =>
    match getCap caps 1, getCap caps 2 with
    | some num, some raw => some (num, raw)
    | _, _ => none

/-- `match[2].trim()` then `.replace(/\*\*/g, '').replace(/\s*[-–:]\s*$/, '').trim()`. -/
def cleanLabel (raw : List Char) : List Char :=
  jsTrim (removeDashTrailer (stripStarStar (jsTrim raw)))

/-- One iteration of the loop body of `parseOptionsFromText`. -/
def optionOfLine (line : List Char) : Option QuickOption :=
  match optionLineMatch line with
  | none => none
  | some (num, raw) =>
    let label := cleanLabel raw
    if label ≠ [] ∧ 2 < label.length ∧ label.length < 100 then
      some { id := "opt-" ++ num.asString, label := label.asString,
             value := num.asString ++ ". " ++ label.asString }
    else none

/-- `parseOptionsFromText` (`src/App.tsx` lines 139-162). -/
def parseOptionsFromText (text : String) : List QuickOption :=
  ((splitLines text.data).filterMap optionOfLine).take 6

/-- The question regex match on one line, returning the two groups. -/
def questionLineMatch (line : List Char) : Option (List Char × List Char) :=
  match reFind questionRE line with
  | none => none
  | some caps =>
    match getCap caps 1, getCap caps 2 with
    | some num, some raw => some (num, raw)
    | _, _ => none

/-- One iteration of the loop body of `parseMultiQuestions`. -/
def questionOfLine (line : List Char) : Option QuestionAnswer :=
  match questionLineMatch line with
  | none => none
  | some (num, raw) =>
    let q := jsTrim (stripStarStar (jsTrim raw))
    if 5 < q.length then
      some { questionId := "q-" ++ num.asString, questionText := q.asString,
             answer := .unset }
    else none

/-- `parseMultiQuestions` (`src/App.tsx` lines 165-186). -/
def parseMultiQuestions (text : String) : List QuestionAnswer :=
  ((splitLines text.data).filterMap questionOfLine).take 10

/-! ### Data model (`src/types.ts`) -/

structure WebSource where
  uri : Option String
  title : Option String
deriving DecidableEq

structure GroundingChunk where
  web : Option WebSource
deriving DecidableEq

inductive Role where
  | user : Role
  | model : Role
deriving DecidableEq

/-- `ChatMessage`; the optional `groundingChunks?`, `isStreaming?`, `hasError?`
fields are modelled with `Option`/`Bool` (absent ≍ `none`/`false`, matching
every truthiness test the source performs on them). -/
structure ChatMessage where
  id : String
  role : Role
  text : String
  groundingChunks : Option (List GroundingChunk)
  isStreaming : Bool
  hasError : Bool
deriving DecidableEq

/-- The component state of `App` that the claims concern. -/
structure AppState where
  inputText : String
  messages : List ChatMessage
  isProcessing : Bool
  error : Option String
  lastMessageTime : Nat
  messageCounter : Nat
deriving DecidableEq

/-- One stream fragment delivered to the `onChunk` callback: incremental text
plus an optional batch of grounding chunks. -/
structure Fragment where
  text : String
  chunks : Option (List GroundingChunk)
deriving DecidableEq

/-- How the remote stream ends: normal completion, or a thrown error whose
`message` is the given string (JS `err.message || fallback` treats an empty
message as absent). -/
inductive StreamOutcome where
  | success : StreamOutcome
  | failure : String → StreamOutcome

/-- `err.message || "I had trouble connecting. Please try saying that again."` -/
def connectFallback : String := "I had trouble connecting. Please try saying that again."

/-- `msg.text || "Sorry, I encountered an error. Please try again."` -/
def bubbleFallback : String := "Sorry, I encountered an error. Please try again."

/-- In-order concatenation of the fragment texts. -/
def concatTexts : List Fragment → String
  | [] => ""
  | f :: rest => f.text ++ concatTexts rest

/-- In-order concatenation of the citation batches (a fragment without a batch
contributes nothing). -/
def concatChunks : List Fragment → List GroundingChunk
  | [] => []
  | f :: rest => f.chunks.getD [] ++ concatChunks rest

/-! ### The exchange controller (`handleSendWithText`, `src/App.tsx` 318-403;
`handleSend`, 426-523, is the same logic applied to the current input text).

Teardown is modelled by `teardown : Option Nat`: `none` means the component
stays mounted for the whole exchange; `some k` means `isMountedRef.current`
becomes false after the `k`-th fragment callback, so the callbacks with index
`≥ k` and the completion/failure/finally continuations all see an unmounted
component. -/

/-- Whether the component is still mounted when fragment `i` arrives. -/
def mountedAt (teardown : Option Nat) (i : Nat) : Bool :=
  match teardown with
  | none => true
  | some k => i < k

/-- The `setMessages` update performed inside the `onChunk` callback. -/
def updateAi (aiMsgId : String) (t : String) (g : List GroundingChunk)
    (msgs : List ChatMessage) : List ChatMessage :=
  msgs.map fun m =>
    if m.id = aiMsgId then { m with text := t, groundingChunks := some g } else m

/-- Deliver the fragments one by one, accumulating text and grounding chunks
and updating the placeholder message, exactly as the `onChunk` closure does;
callbacks arriving after teardown return immediately (`if
(!isMountedRef.current) return`). -/
def processFragments (aiMsgId : String) (teardown : Option Nat) :
    List Fragment → Nat → List ChatMessage → String → List GroundingChunk →
    List ChatMessage × String × List GroundingChunk
  | [], _, msgs, accT, accG => (msgs, accT, accG)
  | f :: rest, i, msgs, accT, accG =>
    if mountedAt teardown i then
      let accT2 := accT ++ f.text
      let accG2 := accG ++ f.chunks.getD []
      processFragments aiMsgId teardown rest (i + 1) (updateAi aiMsgId accT2 accG2 msgs) accT2 accG2
    else
      processFragments aiMsgId teardown rest (i + 1) msgs accT accG

/-- `user-${msgId}-${now}`. -/
def userMsgIdOf (counter now : Nat) : String :=
  "user-" ++ toString counter ++ "-" ++ toString now

/-- `ai-${msgId}-${now}`. -/
def aiMsgIdOf (counter now : Nat) : String :=
  "ai-" ++ toString counter ++ "-" ++ toString now

/-- The synchronous prefix of an accepted submission: record the submission
time, bump the id counter, append the user message and the streaming assistant
placeholder, clear the input, set `isProcessing`, clear the error banner. -/
def startExchange (st : AppState) (text : String) (now : Nat) : AppState :=
  { st with
    messages := st.messages ++
      [ { id := userMsgIdOf st.messageCounter now, role := .user, text := text,
          groundingChunks := none, isStreaming := false, hasError := false },
        { id := aiMsgIdOf st.messageCounter now, role := .model, text := "",
          groundingChunks := none, isStreaming := true, hasError := false } ],
    inputText := "",
    isProcessing := true,
    error := none,
    lastMessageTime := now,
    messageCounter := st.messageCounter + 1 }

/-- The `setMessages` update after normal stream completion. -/
def finishSuccess (aiMsgId : String) (msgs : List ChatMessage) : List ChatMessage :=
  msgs.map fun m => if m.id = aiMsgId then { m with isStreaming := false } else m

/-- The `setMessages` update in the `catch` block. -/
def finishFailure (aiMsgId : String) (msgs : List ChatMessage) : List ChatMessage :=
  msgs.map fun m =>
    if m.id = aiMsgId then
      { m with isStreaming := false, hasError := true,
               text := if m.text = "" then bubbleFallback else m.text }
    else m

/-- `handleSendWithText`, as a pure function of the state, the submitted text,
the current time, and the behaviour of the remote stream. -/
def runExchange (st : AppState) (text : String) (now : Nat)
    (frags : List Fragment) (outcome : StreamOutcome) (teardown : Option Nat) : AppState :=
  if jsTrim text.data = [] ∨ st.isProcessing = true then st
  else if now - st.lastMessageTime < 1000 then st
  else
    let aiMsgId := aiMsgIdOf st.messageCounter now
    let base := startExchange st text now
    let msgs := (processFragments aiMsgId teardown frags 0 base.messages "" []).1
    match outcome, teardown with
    | .success, none =>
      { base with messages := finishSuccess aiMsgId msgs, isProcessing := false }
    | .failure errMsg, none =>
      { base with messages := finishFailure aiMsgId msgs,
                  error := some (if errMsg = "" then connectFallback else errMsg),
                  isProcessing := false }
    | _, some _ => { base with messages := msgs }

/-- `handleSend` submits the current input text. -/
def handleSend (st : AppState) (now : Nat) (frags : List Fragment)
    (outcome : StreamOutcome) (teardown : Option Nat) : AppState :=
  runExchange st st.inputText now frags outcome teardown

/-! ### Retry (`handleRetry`, `src/App.tsx` 525-536) -/

/-- `handleRetry`. -/
def handleRetry (st : AppState) (messageId : String) : AppState :=
  match st.messages.findIdx? (fun m => m.id == messageId) with
  | none => st
  | some msgIndex =>
    match st.messages[msgIndex]? with
    | none => st
    | some msg =>
      if msg.role = .user then
        { st with messages := st.messages.take msgIndex,
                  inputText := msg.text, error := none }
      else st

/-! ### Quick replies (`getQuickReplies`, `src/App.tsx` 254-292) and
multi-question mode (`parseMultiQuestions` threshold, lines 869-873) -/

/-- The yes/no-framing keyword test. -/
def yesNoKeyword (t : String) : Bool :=
  jsIncludes t "do you" || jsIncludes t "does it" || jsIncludes t "is it" ||
  jsIncludes t "are you" || jsIncludes t "can you" || jsIncludes t "would you" ||
  jsIncludes t "have you"

def yesOpt : QuickOption := { id := "yes", label := "Yes", value := "Yes" }
def noOpt : QuickOption := { id := "no", label := "No", value := "No" }
def moreOpt : QuickOption :=
  { id := "more", label := "Tell me more", value := "Can you tell me more about that?" }
def helpOpt : QuickOption :=
  { id := "help", label := "I need help understanding",
    value := "I need help understanding this. Can you explain it in simpler terms?" }

/-- `getQuickReplies` (the `which one` branch of the source adds nothing). -/
def getQuickReplies (messages : List ChatMessage) (isProcessing : Bool) : List QuickOption :=
  if messages.length = 0 ∨ isProcessing = true then []
  else
    match messages.getLast? with
    | none => []
    | some lastMsg =>
      if lastMsg.role ≠ Role.model ∨ lastMsg.isStreaming = true then []
      else
        let text := lowerStr lastMsg.text
        let r1 := if jsIncludes text "?" && yesNoKeyword text then [yesOpt, noOpt] else []
        let r2 := if jsIncludes text "?" then [moreOpt] else []
        let r3 :=
          if jsIncludes text "form" || jsIncludes text "application" || jsIncludes text "grant"
          then [helpOpt] else []
        ((r1 ++ r2) ++ r3).take 4

/-- `hasMultiQ` (`src/App.tsx` line 873): multi-question mode for a rendered
assistant message. -/
def hasMultiQ (msg : ChatMessage) : Bool :=
  decide (2 ≤ (parseMultiQuestions msg.text).length) && !msg.isStreaming && !msg.hasError

/-- The fields of a message that the streaming callback never changes. -/
def msgFlags (m : ChatMessage) : String × Role × Bool × Bool :=
  (m.id, m.role, m.isStreaming, m.hasError)

/-- `getQuickReplies` as a function of the last message only. -/
def qrCore (last : Option ChatMessage) (isProcessing : Bool) : List QuickOption :=
  if isProcessing = true then []
  else
    match last with
    | none => []
    | some lastMsg =>
      if lastMsg.role ≠ Role.model ∨ lastMsg.isStreaming = true then []
      else
        let text := lowerStr lastMsg.text
        let r1 := if jsIncludes text "?" && yesNoKeyword text then [yesOpt, noOpt] else []
        let r2 := if jsIncludes text "?" then [moreOpt] else []
        let r3 :=
          if jsIncludes text "form" || jsIncludes text "application" || jsIncludes text "grant"
          then [helpOpt] else []
        ((r1 ++ r2) ++ r3).take 4

/-! ### Concrete values used by the witnesses and counterexamples -/

/-- The two-question example text from the specification. -/
def twoQText : String := "1. Do you rent your home?\n2. Do you own a vehicle?"

/-- The same text with one line removed. -/
def oneQText : String := "1. Do you rent your home?"

/-- A text with eight matching numbered lines. -/
def eightLineText : String :=
  "1. Choice number one\n2. Choice number two\n3. Choice number three\n4. Choice number four\n5. Choice number five\n6. Choice number six\n7. Choice number seven\n8. Choice number eight"

/-- A fresh idle component state. -/
def demoIdleState : AppState :=
  { inputText := "", messages := [], isProcessing := false, error := none,
    lastMessageTime := 0, messageCounter := 0 }

/-- Two demo fragments, the second carrying a citation batch. -/
def demoFragments : List Fragment :=
  [ { text := "Hello ", chunks := none },
    { text := "world", chunks := some [ { web := some { uri := some "https://example.ca", title := some "Example" } } ] } ]

def demoUserMsg1 : ChatMessage :=
  { id := "u1", role := .user, text := "first question", groundingChunks := none,
    isStreaming := false, hasError := false }

def demoModelMsg : ChatMessage :=
  { id := "a1", role := .model, text := "a reply", groundingChunks := none,
    isStreaming := false, hasError := false }

def demoUserMsg2 : ChatMessage :=
  { id := "u2", role := .user, text := "second question", groundingChunks := none,
    isStreaming := false, hasError := false }

/-- A state with a user/assistant/user conversation. -/
def demoRetryState : AppState :=
  { inputText := "draft", messages := [demoUserMsg1, demoModelMsg, demoUserMsg2],
    isProcessing := false, error := some "old banner", lastMessageTime := 0,
    messageCounter := 2 }

/-- A finalized assistant message satisfying every quick-reply condition. -/
def demoQuickMsg : ChatMessage :=
  { id := "a", role := .model, text := "Do you have a grant form?", groundingChunks := none,
    isStreaming := false, hasError := false }

/-- A still-streaming assistant message whose partial text already contains two
numbered question lines. -/
def demoStreamingMsg : ChatMessage :=
  { id := "s", role := .model, text := twoQText, groundingChunks := none,
    isStreaming := true, hasError := false }

/-! ### Helper lemmas -/


theorem updateAi_msgFlags (aiMsgId : String) (t : String) (g : List GroundingChunk)
    (m : ChatMessage) :
    msgFlags (if m.id = aiMsgId then { m with text := t, groundingChunks := some g } else m)
      = msgFlags m := by
  by_cases h : m.id = aiMsgId <;> simp [msgFlags, h]

theorem getLast?_updateAi_msgFlags (aiMsgId : String) (t : String) (g : List GroundingChunk)
    (msgs : List ChatMessage) :
    ((updateAi aiMsgId t g msgs).getLast?).map msgFlags = (msgs.getLast?).map msgFlags := by
  rw [updateAi, List.getLast?_map]
  cases msgs.getLast? with
  | none => rfl
  | some m => simp only [Option.map_some']; rw [updateAi_msgFlags]

theorem processFragments_length (aiMsgId : String) (td : Option Nat) :
    ∀ (frags : List Fragment) (i : Nat) (msgs : List ChatMessage) (accT : String)
      (accG : List GroundingChunk),
      (processFragments aiMsgId td frags i msgs accT accG).1.length = msgs.length := by
  intro frags
  induction frags with
  | nil => intro i msgs accT accG; rfl
  | cons f rest ih =>
    intro i msgs accT accG
    by_cases h : mountedAt td i = true
    · simp only [processFragments, h, if_true]
      rw [ih]
      simp [updateAi]
    · simp only [processFragments, h, if_false, Bool.false_eq_true]
      exact ih _ _ _ _

theorem processFragments_msgFlags (aiMsgId : String) (td : Option Nat) :
    ∀ (frags : List Fragment) (i : Nat) (msgs : List ChatMessage) (accT : String)
      (accG : List GroundingChunk),
      ((processFragments aiMsgId td frags i msgs accT accG).1.getLast?).map msgFlags
        = (msgs.getLast?).map msgFlags := by
  intro frags
  induction frags with
  | nil => intro i msgs accT accG; rfl
  | cons f rest ih =>
    intro i msgs accT accG
    by_cases h : mountedAt td i = true
    · simp only [processFragments, h, if_true]
      rw [ih, getLast?_updateAi_msgFlags]
    · simp only [processFragments, h, if_false, Bool.false_eq_true]
      exact ih _ _ _ _

theorem processFragments_none_getLast (aiMsgId : String) :
    ∀ (frags : List Fragment) (i : Nat) (msgs : List ChatMessage) (accT : String)
      (accG : List GroundingChunk) (p : ChatMessage),
      msgs.getLast? = some p → p.id = aiMsgId → p.text = accT →
      p.groundingChunks.getD [] = accG →
      ∃ q : ChatMessage,
        (processFragments aiMsgId none frags i msgs accT accG).1.getLast? = some q ∧
        q.id = aiMsgId ∧ q.role = p.role ∧ q.isStreaming = p.isStreaming ∧
        q.hasError = p.hasError ∧
        q.text = accT ++ concatTexts frags ∧
        q.groundingChunks.getD [] = accG ++ concatChunks frags := by
  intro frags
  induction frags with
  | nil =>
    intro i msgs accT accG p hlast hid htext hg
    refine ⟨p, hlast, hid, rfl, rfl, rfl, ?_, ?_⟩
    · rw [htext, concatTexts, String.append_empty]
    · rw [hg, concatChunks, List.append_nil]
  | cons f rest ih =>
    intro i msgs accT accG p hlast hid htext hg
    have hupd : (updateAi aiMsgId (accT ++ f.text) (accG ++ f.chunks.getD []) msgs).getLast?
        = some { p with text := accT ++ f.text,
                        groundingChunks := some (accG ++ f.chunks.getD []) } := by
      rw [updateAi, List.getLast?_map, hlast, Option.map_some', if_pos hid]
    obtain ⟨q, hq, hqid, hqrole, hqstream, hqerr, hqtext, hqg⟩ :=
      ih (i + 1) _ (accT ++ f.text) (accG ++ f.chunks.getD []) _ hupd hid rfl (by simp)
    refine ⟨q, ?_, hqid, hqrole, hqstream, hqerr, ?_, ?_⟩
    · simpa only [processFragments, mountedAt, if_true] using hq
    · rw [hqtext, concatTexts, String.append_assoc]
    · rw [hqg, concatChunks, List.append_assoc]

theorem startExchange_getLast (st : AppState) (text : String) (now : Nat) :
    (startExchange st text now).messages.getLast? =
      some { id := aiMsgIdOf st.messageCounter now, role := .model, text := "",
             groundingChunks := none, isStreaming := true, hasError := false } := by
  show (st.messages ++ [_, _]).getLast? = _
  rw [show (st.messages ++
        [ { id := userMsgIdOf st.messageCounter now, role := Role.user, text := text,
            groundingChunks := none, isStreaming := false, hasError := false },
          { id := aiMsgIdOf st.messageCounter now, role := Role.model, text := "",
            groundingChunks := none, isStreaming := true, hasError := false } ])
      = (st.messages ++
          [ { id := userMsgIdOf st.messageCounter now, role := Role.user, text := text,
              groundingChunks := none, isStreaming := false, hasError := false } ]) ++
          [ { id := aiMsgIdOf st.messageCounter now, role := Role.model, text := "",
              groundingChunks := none, isStreaming := true, hasError := false } ]
      by rw [List.append_assoc]; rfl]
  exact List.getLast?_concat _

theorem runExchange_rejected (st : AppState) (text : String) (now : Nat)
    (frags : List Fragment) (outcome : StreamOutcome) (td : Option Nat)
    (h : jsTrim text.data = [] ∨ st.isProcessing = true ∨ now - st.lastMessageTime < 1000) :
    runExchange st text now frags outcome td = st := by
  unfold runExchange
  rcases h with h | h | h
  · rw [if_pos (Or.inl h)]
  · rw [if_pos (Or.inr h)]
  · by_cases h0 : jsTrim text.data = [] ∨ st.isProcessing = true
    · rw [if_pos h0]
    · rw [if_neg h0, if_pos h]

theorem runExchange_success_none (st : AppState) (text : String) (now : Nat)
    (frags : List Fragment)
    (h1 : jsTrim text.data ≠ []) (h2 : st.isProcessing = false)
    (h3 : ¬ now - st.lastMessageTime < 1000) :
    runExchange st text now frags .success none =
      { startExchange st text now with
        messages := finishSuccess (aiMsgIdOf st.messageCounter now)
          ((processFragments (aiMsgIdOf st.messageCounter now) none frags 0
            (startExchange st text now).messages "" []).1),
        isProcessing := false } := by
  have hA : ¬ (jsTrim text.data = [] ∨ st.isProcessing = true) := by
    intro h
    rcases h with h | h
    · exact h1 h
    · rw [h2] at h; exact Bool.false_ne_true h
  unfold runExchange
  rw [if_neg hA, if_neg h3]

theorem runExchange_failure_none (st : AppState) (text : String) (now : Nat)
    (frags : List Fragment) (errMsg : String)
    (h1 : jsTrim text.data ≠ []) (h2 : st.isProcessing = false)
    (h3 : ¬ now - st.lastMessageTime < 1000) :
    runExchange st text now frags (.failure errMsg) none =
      { startExchange st text now with
        messages := finishFailure (aiMsgIdOf st.messageCounter now)
          ((processFragments (aiMsgIdOf st.messageCounter now) none frags 0
            (startExchange st text now).messages "" []).1),
        error := some (if errMsg = "" then connectFallback else errMsg),
        isProcessing := false } := by
  have hA : ¬ (jsTrim text.data = [] ∨ st.isProcessing = true) := by
    intro h
    rcases h with h | h
    · exact h1 h
    · rw [h2] at h; exact Bool.false_ne_true h
  unfold runExchange
  rw [if_neg hA, if_neg h3]

theorem runExchange_teardown (st : AppState) (text : String) (now : Nat)
    (frags : List Fragment) (outcome : StreamOutcome) (k : Nat)
    (h1 : jsTrim text.data ≠ []) (h2 : st.isProcessing = false)
    (h3 : ¬ now - st.lastMessageTime < 1000) :
    runExchange st text now frags outcome (some k) =
      { startExchange st text now with
        messages := (processFragments (aiMsgIdOf st.messageCounter now) (some k) frags 0
          (startExchange st text now).messages "" []).1 } := by
  have hA : ¬ (jsTrim text.data = [] ∨ st.isProcessing = true) := by
    intro h
    rcases h with h | h
    · exact h1 h
    · rw [h2] at h; exact Bool.false_ne_true h
  unfold runExchange
  rw [if_neg hA, if_neg h3]
  cases outcome <;> rfl

theorem findIdx?_from (p : ChatMessage → Bool) :
    ∀ (l : List ChatMessage) (k : Nat) (x : ChatMessage) (i : Nat),
      l[k]? = some x → p x = true → (l.take k).all (fun a => !p a) = true →
      List.findIdx? p l i = some (i + k) := by
  intro l
  induction l with
  | nil => intro k x i hk; simp at hk
  | cons a l ih =>
    intro k x i hk hx hall
    cases k with
    | zero =>
      simp only [List.getElem?_cons_zero, Option.some.injEq] at hk
      rw [List.findIdx?_cons, if_pos (by rw [hk]; exact hx)]
      rfl
    | succ k =>
      simp only [List.getElem?_cons_succ] at hk
      simp only [List.take_succ_cons, List.all_cons, Bool.and_eq_true, Bool.not_eq_true'] at hall
      rw [List.findIdx?_cons, if_neg (by rw [hall.1]; exact Bool.false_ne_true),
        ih k x (i + 1) hk hx hall.2]
      congr 1
      omega

theorem findIdx?_none_of_all (p : ChatMessage → Bool) :
    ∀ (l : List ChatMessage) (i : Nat),
      l.all (fun a => !p a) = true → List.findIdx? p l i = none := by
  intro l
  induction l with
  | nil => intro i _; rfl
  | cons a l ih =>
    intro i hall
    simp only [List.all_cons, Bool.and_eq_true, Bool.not_eq_true'] at hall
    rw [List.findIdx?_cons, if_neg (by rw [hall.1]; exact Bool.false_ne_true), ih _ hall.2]


theorem getQuickReplies_eq_qrCore (msgs : List ChatMessage) (b : Bool) :
    getQuickReplies msgs b = qrCore msgs.getLast? b := by
  by_cases hb : b = true
  · subst hb
    simp [getQuickReplies, qrCore]
  · have hb0 : b = false := by
      cases b
      · rfl
      · exact absurd rfl hb
    subst hb0
    by_cases h0 : msgs = []
    · subst h0; rfl
    · have hlen : ¬ (msgs.length = 0 ∨ (false : Bool) = true) := by
        simp [List.length_eq_zero, h0]
      rw [getQuickReplies, if_neg hlen, qrCore.eq_def,
        if_neg (by simp : ¬ (false : Bool) = true)]

theorem runExchange_accepted_length (st : AppState) (text : String) (now : Nat)
    (frags : List Fragment) (outcome : StreamOutcome) (td : Option Nat)
    (h1 : jsTrim text.data ≠ []) (h2 : st.isProcessing = false)
    (h3 : ¬ now - st.lastMessageTime < 1000) :
    (runExchange st text now frags outcome td).messages.length = st.messages.length + 2 := by
  have hbase : (startExchange st text now).messages.length = st.messages.length + 2 := by
    simp [startExchange]
  cases td with
  | none =>
    cases outcome with
    | success =>
      rw [runExchange_success_none st text now frags h1 h2 h3]
      show (finishSuccess _ _).length = _
      rw [finishSuccess, List.length_map, processFragments_length, hbase]
    | failure errMsg =>
      rw [runExchange_failure_none st text now frags errMsg h1 h2 h3]
      show (finishFailure _ _).length = _
      rw [finishFailure, List.length_map, processFragments_length, hbase]
  | some k =>
    rw [runExchange_teardown st text now frags outcome k h1 h2 h3]
    show (processFragments _ _ _ _ _ _ _).1.length = _
    rw [processFragments_length, hbase]

theorem runExchange_accepted_time (st : AppState) (text : String) (now : Nat)
    (frags : List Fragment) (outcome : StreamOutcome) (td : Option Nat)
    (h1 : jsTrim text.data ≠ []) (h2 : st.isProcessing = false)
    (h3 : ¬ now - st.lastMessageTime < 1000) :
    (runExchange st text now frags outcome td).lastMessageTime = now := by
  cases td with
  | none =>
    cases outcome with
    | success => rw [runExchange_success_none st text now frags h1 h2 h3]; rfl
    | failure errMsg => rw [runExchange_failure_none st text now frags errMsg h1 h2 h3]; rfl
  | some k => rw [runExchange_teardown st text now frags outcome k h1 h2 h3]; rfl

theorem str_empty_append (s : String) : "" ++ s = s := by
  cases s
  rfl

theorem finishSuccess_getLast (aiMsgId : String) (msgs : List ChatMessage) (q : ChatMessage)
    (hq : msgs.getLast? = some q) (hid : q.id = aiMsgId) :
    (finishSuccess aiMsgId msgs).getLast? = some { q with isStreaming := false } := by
  rw [finishSuccess, List.getLast?_map, hq, Option.map_some', if_pos hid]

theorem finishFailure_getLast (aiMsgId : String) (msgs : List ChatMessage) (q : ChatMessage)
    (hq : msgs.getLast? = some q) (hid : q.id = aiMsgId) :
    (finishFailure aiMsgId msgs).getLast? =
      some { q with isStreaming := false, hasError := true,
                    text := if q.text = "" then bubbleFallback else q.text } := by
  rw [finishFailure, List.getLast?_map, hq, Option.map_some', if_pos hid]

theorem getLast?_isStreaming_of_msgFlags (l : List ChatMessage) (p : ChatMessage)
    (h : (l.getLast?).map msgFlags = some (msgFlags p)) :
    (l.getLast?).map (fun m => m.isStreaming) = some p.isStreaming := by
  cases hgl : l.getLast? with
  | none => rw [hgl] at h; exact absurd h (by simp)
  | some m =>
    rw [hgl] at h
    simp only [Option.map_some', Option.some.injEq] at h
    simp only [Option.map_some', Option.some.injEq]
    exact congrArg (fun t => t.2.2.1) h

theorem qrCore_length_le (last : Option ChatMessage) (b : Bool) :
    (qrCore last b).length ≤ 4 := by
  rw [qrCore.eq_def]
  split
  · decide
  · split
    · decide
    · split
      · decide
      · exact List.length_take_le _ _

/-! ### The claims -/

/-- C1: for every fragment sequence delivered to the chunk callback of an
exchange started on a fresh assistant placeholder (an accepted submission with
the component mounted throughout), the final assistant message's text is the
concatenation of the fragment texts in arrival order, and its citation list is
the in-order concatenation of all citation batches without deduplication. -/
theorem c1_stream_assembly_concat (st : AppState) (text : String) (now : Nat)
    (frags : List Fragment)
    (h1 : jsTrim text.data ≠ []) (h2 : st.isProcessing = false)
    (h3 : ¬ now - st.lastMessageTime < 1000) :
    ∃ m : ChatMessage,
      (runExchange st text now frags .success none).messages.getLast? = some m ∧
      m.text = concatTexts frags ∧
      m.groundingChunks.getD [] = concatChunks frags ∧
      m.role = .model ∧ m.isStreaming = false ∧ m.hasError = false := by
  rw [runExchange_success_none st text now frags h1 h2 h3]
  obtain ⟨q, hq, hqid, hqrole, hqstream, hqerr, hqtext, hqg⟩ :=
    processFragments_none_getLast (aiMsgIdOf st.messageCounter now) frags 0
      (startExchange st text now).messages "" [] _
      (startExchange_getLast st text now) rfl rfl rfl
  refine ⟨{ q with isStreaming := false },
    finishSuccess_getLast (aiMsgIdOf st.messageCounter now) _ q hq hqid, ?_, ?_, ?_, rfl, ?_⟩
  · show q.text = concatTexts frags
    rw [hqtext]
    exact str_empty_append _
  · show q.groundingChunks.getD [] = concatChunks frags
    rw [hqg]
    exact List.nil_append _
  · exact hqrole
  · exact hqerr

/-- C2: a rendered assistant message is in multi-question mode exactly when its
text parses to at least two questions and it is finalized (not streaming, no
error); a streaming message never triggers the mode; the two-question example
yields 2 questions, the one-line version yields 1 and never triggers the mode. -/
theorem c2_multi_question_mode :
    (∀ m : ChatMessage, hasMultiQ m = true ↔
      (2 ≤ (parseMultiQuestions m.text).length ∧ m.isStreaming = false ∧ m.hasError = false)) ∧
    (∀ m : ChatMessage, m.isStreaming = true → hasMultiQ m = false) ∧
    (parseMultiQuestions twoQText).length = 2 ∧
    (parseMultiQuestions oneQText).length = 1 ∧
    (∀ m : ChatMessage, m.text = oneQText → hasMultiQ m = false) := by
  refine ⟨?_, ?_, ?_, ?_, ?_⟩
  · intro m
    simp [hasMultiQ, and_assoc]
  · intro m h
    simp [hasMultiQ, h]
  · decide
  · decide
  · intro m h
    have h1 : decide (2 ≤ (parseMultiQuestions oneQText).length) = false := by decide
    rw [hasMultiQ, h, h1, Bool.false_and, Bool.false_and]

/-- C3: the two-option example extracts the two expected options with ids
`opt-1`/`opt-2`; a matched line whose cleaned label has fewer than 3 or at
least 100 characters produces no option, while a 3-character label is
accepted; the result keeps at most the first 6 matching lines in order. -/
theorem c3_option_extraction :
    parseOptionsFromText "1. Apply for housing grant\n2. Apply for medical grant" =
      [ { id := "opt-1", label := "Apply for housing grant",
          value := "1. Apply for housing grant" },
        { id := "opt-2", label := "Apply for medical grant",
          value := "2. Apply for medical grant" } ] ∧
    (∀ (line num raw : List Char), optionLineMatch line = some (num, raw) →
      (cleanLabel raw).length < 3 ∨ 100 ≤ (cleanLabel raw).length →
      optionOfLine line = none) ∧
    optionOfLine "1. Hi".data = none ∧
    optionOfLine "1. Abc".data = some { id := "opt-1", label := "Abc", value := "1. Abc" } ∧
    (∀ t : String, (parseOptionsFromText t).length ≤ 6) ∧
    (parseOptionsFromText eightLineText).map (fun o => o.id) =
      ["opt-1", "opt-2", "opt-3", "opt-4", "opt-5", "opt-6"] := by
  refine ⟨by decide, ?_, by decide, by decide, ?_, by decide⟩
  · intro line num raw hmatch hlen
    have heq : optionOfLine line =
        (if cleanLabel raw ≠ [] ∧ 2 < (cleanLabel raw).length ∧ (cleanLabel raw).length < 100
         then some { id := "opt-" ++ num.asString, label := (cleanLabel raw).asString,
                     value := num.asString ++ ". " ++ (cleanLabel raw).asString }
         else none) := by
      rw [optionOfLine.eq_def, hmatch]
    have hcond : ¬ (cleanLabel raw ≠ [] ∧ 2 < (cleanLabel raw).length ∧
        (cleanLabel raw).length < 100) := by
      rintro ⟨-, hgt, hlt⟩
      rcases hlen with h | h
      · omega
      · omega
    rw [heq, if_neg hcond]
  · intro t
    rw [parseOptionsFromText]
    exact List.length_take_le _ _

/-- C4: a numbered line ending in `?` is matched by both extractors at once
(on the two-question example, both lines appear in the option list and in the
question list; nothing is deduplicated across the two extractors). -/
theorem c4_double_extraction :
    (parseOptionsFromText twoQText).map (fun o => o.label) =
      ["Do you rent your home?", "Do you own a vehicle?"] ∧
    (parseMultiQuestions twoQText).map (fun q => q.questionText) =
      ["Do you rent your home?", "Do you own a vehicle?"] := by
  constructor
  · decide
  · decide

/-- C5: quick replies are empty while processing, for an empty conversation,
and when the last message is not a finalized assistant message; otherwise at
most 4 are returned, in the order Yes, No, Tell me more, help when every
condition holds; and the result depends only on the last message and the
processing flag. -/
theorem c5_quick_replies :
    (∀ msgs : List ChatMessage, getQuickReplies msgs true = []) ∧
    (∀ b : Bool, getQuickReplies [] b = []) ∧
    (∀ (msgs : List ChatMessage) (m : ChatMessage) (b : Bool),
      msgs.getLast? = some m → (m.role ≠ Role.model ∨ m.isStreaming = true) →
      getQuickReplies msgs b = []) ∧
    (∀ (msgs : List ChatMessage) (b : Bool), (getQuickReplies msgs b).length ≤ 4) ∧
    (∀ (msgs : List ChatMessage) (m : ChatMessage),
      msgs.getLast? = some m → m.role = Role.model → m.isStreaming = false →
      jsIncludes (lowerStr m.text) "?" = true →
      yesNoKeyword (lowerStr m.text) = true →
      (jsIncludes (lowerStr m.text) "form" || jsIncludes (lowerStr m.text) "application" ||
        jsIncludes (lowerStr m.text) "grant") = true →
      getQuickReplies msgs false = [yesOpt, noOpt, moreOpt, helpOpt]) ∧
    (∀ (msgs msgs2 : List ChatMessage) (b : Bool),
      msgs.getLast? = msgs2.getLast? → getQuickReplies msgs b = getQuickReplies msgs2 b) := by
  refine ⟨?_, ?_, ?_, ?_, ?_, ?_⟩
  · intro msgs
    simp [getQuickReplies]
  · intro b
    simp [getQuickReplies]
  · intro msgs m b hlast hbad
    rw [getQuickReplies_eq_qrCore, hlast, qrCore.eq_def]
    by_cases hb : b = true
    · rw [if_pos hb]
    · rw [if_neg hb]
      exact if_pos hbad
  · intro msgs b
    rw [getQuickReplies_eq_qrCore]
    exact qrCore_length_le _ _
  · intro msgs m hlast hrole hstream hq hk hform
    rw [getQuickReplies_eq_qrCore, hlast, qrCore.eq_def,
      if_neg (by simp : ¬ (false : Bool) = true)]
    simp only [hrole, hstream, hq, hk, hform]
    simp
  · intro msgs msgs2 b hlast
    rw [getQuickReplies_eq_qrCore, getQuickReplies_eq_qrCore, hlast]

/-- C6: a submission is accepted only when the trimmed text is non-empty, no
exchange is processing, and at least 1000ms have passed since the last accepted
submission; a failing attempt is a silent no-op leaving the whole state
unchanged; an accepted one appends exactly the user message and the assistant
placeholder and stamps the acceptance time, so a second submission within
1000ms of an accepted one changes nothing. -/
theorem c6_submission_guard :
    (∀ (st : AppState) (text : String) (now : Nat) (frags : List Fragment)
       (o : StreamOutcome) (td : Option Nat),
       (jsTrim text.data = [] ∨ st.isProcessing = true ∨ now - st.lastMessageTime < 1000) →
       runExchange st text now frags o td = st) ∧
    (∀ (st : AppState) (text : String) (now : Nat) (frags : List Fragment)
       (o : StreamOutcome) (td : Option Nat),
       jsTrim text.data ≠ [] → st.isProcessing = false → ¬ now - st.lastMessageTime < 1000 →
       (runExchange st text now frags o td).messages.length = st.messages.length + 2 ∧
       (runExchange st text now frags o td).lastMessageTime = now) ∧
    (∀ (st : AppState) (text : String) (now : Nat) (frags : List Fragment)
       (o : StreamOutcome) (td : Option Nat)
       (text2 : String) (now2 : Nat) (frags2 : List Fragment)
       (o2 : StreamOutcome) (td2 : Option Nat),
       jsTrim text.data ≠ [] → st.isProcessing = false → ¬ now - st.lastMessageTime < 1000 →
       now2 - now < 1000 →
       runExchange (runExchange st text now frags o td) text2 now2 frags2 o2 td2
         = runExchange st text now frags o td) := by
  refine ⟨?_, ?_, ?_⟩
  · intro st text now frags o td h
    exact runExchange_rejected st text now frags o td h
  · intro st text now frags o td h1 h2 h3
    exact ⟨runExchange_accepted_length st text now frags o td h1 h2 h3,
           runExchange_accepted_time st text now frags o td h1 h2 h3⟩
  · intro st text now frags o td text2 now2 frags2 o2 td2 h1 h2 h3 h4
    apply runExchange_rejected
    right; right
    rw [runExchange_accepted_time st text now frags o td h1 h2 h3]
    exact h4

/-- C7: when the stream of an accepted, mounted exchange fails, the assistant
message ends with `hasError = true` and `isStreaming = false`; if no text was
accumulated its text becomes the non-empty fallback string, and any partial
text already streamed is preserved unchanged. -/
theorem c7_stream_failure (st : AppState) (text : String) (now : Nat)
    (frags : List Fragment) (errMsg : String)
    (h1 : jsTrim text.data ≠ []) (h2 : st.isProcessing = false)
    (h3 : ¬ now - st.lastMessageTime < 1000) :
    ∃ m : ChatMessage,
      (runExchange st text now frags (.failure errMsg) none).messages.getLast? = some m ∧
      m.hasError = true ∧ m.isStreaming = false ∧
      (concatTexts frags = "" → m.text = bubbleFallback ∧ bubbleFallback ≠ "") ∧
      (concatTexts frags ≠ "" → m.text = concatTexts frags) := by
  rw [runExchange_failure_none st text now frags errMsg h1 h2 h3]
  obtain ⟨q, hq, hqid, hqrole, hqstream, hqerr, hqtext, hqg⟩ :=
    processFragments_none_getLast (aiMsgIdOf st.messageCounter now) frags 0
      (startExchange st text now).messages "" [] _
      (startExchange_getLast st text now) rfl rfl rfl
  have hqt : q.text = concatTexts frags := by
    rw [hqtext]
    exact str_empty_append _
  refine ⟨_, finishFailure_getLast (aiMsgIdOf st.messageCounter now) _ q hq hqid,
    rfl, rfl, ?_, ?_⟩
  · intro h0
    constructor
    · show (if q.text = "" then bubbleFallback else q.text) = bubbleFallback
      rw [hqt, h0, if_pos rfl]
    · decide
  · intro h0
    show (if q.text = "" then bubbleFallback else q.text) = concatTexts frags
    rw [hqt, if_neg h0]

/-- C8: retrying the user message at index `k` (the first message carrying the
retried id) truncates the conversation to its first `k` messages, repopulates
the input with that message's text, clears the banner, and changes nothing
else — in particular no message is appended and no exchange is started. -/
theorem c8_retry_truncates (st : AppState) (mid : String) (k : Nat) (msg : ChatMessage)
    (hk : st.messages[k]? = some msg) (hid : msg.id = mid) (hrole : msg.role = Role.user)
    (hfirst : (st.messages.take k).all (fun m => !(m.id == mid)) = true) :
    handleRetry st mid =
      { st with messages := st.messages.take k, inputText := msg.text, error := none } := by
  have hfind : st.messages.findIdx? (fun m => m.id == mid) = some k := by
    have h := findIdx?_from (fun m => m.id == mid) st.messages k msg 0 hk
      (by show (msg.id == mid) = true; rw [hid]; exact beq_self_eq_true mid) hfirst
    simpa using h
  simp only [handleRetry.eq_def, hfind, hk]
  rw [if_pos hrole]

/-- C9 (original claim refuted): a teardown before completion does not clear
the flags — after an accepted exchange whose component unmounts before any
callback, `isProcessing` and the placeholder's `isStreaming` are still true. -/
theorem c9_counterexample :
    (runExchange demoIdleState "hello" 2000 [] .success (some 0)).isProcessing = true ∧
    ((runExchange demoIdleState "hello" 2000 [] .success (some 0)).messages.getLast?.map
      (fun m => m.isStreaming)) = some true := by
  constructor
  · decide
  · decide

/-- C9 (amended): on normal completion and on stream failure with the
component still mounted, `isProcessing` and the assistant message's
`isStreaming` are cleared to false; on teardown before completion no further
mutation happens, so both flags remain true in the torn-down state. -/
theorem c9_exit_paths (st : AppState) (text : String) (now : Nat)
    (frags : List Fragment) (outcome : StreamOutcome) (td : Option Nat)
    (h1 : jsTrim text.data ≠ []) (h2 : st.isProcessing = false)
    (h3 : ¬ now - st.lastMessageTime < 1000) :
    (td = none →
      (runExchange st text now frags outcome td).isProcessing = false ∧
      ((runExchange st text now frags outcome td).messages.getLast?.map
        (fun m => m.isStreaming)) = some false) ∧
    (∀ k : Nat, td = some k →
      (runExchange st text now frags outcome td).isProcessing = true ∧
      ((runExchange st text now frags outcome td).messages.getLast?.map
        (fun m => m.isStreaming)) = some true) := by
  constructor
  · rintro rfl
    obtain ⟨q, hq, hqid, hqrole, hqstream, hqerr, hqtext, hqg⟩ :=
      processFragments_none_getLast (aiMsgIdOf st.messageCounter now) frags 0
        (startExchange st text now).messages "" [] _
        (startExchange_getLast st text now) rfl rfl rfl
    cases outcome with
    | success =>
      rw [runExchange_success_none st text now frags h1 h2 h3]
      refine ⟨rfl, ?_⟩
      have h := finishSuccess_getLast (aiMsgIdOf st.messageCounter now) _ q hq hqid
      exact (congrArg (Option.map (fun m => m.isStreaming)) h).trans rfl
    | failure errMsg =>
      rw [runExchange_failure_none st text now frags errMsg h1 h2 h3]
      refine ⟨rfl, ?_⟩
      have h := finishFailure_getLast (aiMsgIdOf st.messageCounter now) _ q hq hqid
      exact (congrArg (Option.map (fun m => m.isStreaming)) h).trans rfl
  · rintro k rfl
    rw [runExchange_teardown st text now frags outcome k h1 h2 h3]
    refine ⟨rfl, ?_⟩
    have h := processFragments_msgFlags (aiMsgIdOf st.messageCounter now) (some k) frags 0
      (startExchange st text now).messages "" []
    rw [startExchange_getLast] at h
    exact getLast?_isStreaming_of_msgFlags _
      { id := aiMsgIdOf st.messageCounter now, role := .model, text := "",
        groundingChunks := none, isStreaming := true, hasError := false }
      (h.trans rfl)

/-- C10: retrying with an id whose first (or only) occurrence is an assistant
message, or with an id absent from the conversation, changes nothing: the
messages, the input text and the error banner are all left as they were. -/
theorem c10_retry_foreign_noop (st : AppState) (mid : String) :
    (st.messages.all (fun m => !(m.id == mid)) = true → handleRetry st mid = st) ∧
    (∀ (k : Nat) (msg : ChatMessage), st.messages[k]? = some msg → msg.id = mid →
      msg.role = Role.model →
      (st.messages.take k).all (fun m => !(m.id == mid)) = true →
      handleRetry st mid = st) := by
  constructor
  · intro hall
    have hfind : st.messages.findIdx? (fun m => m.id == mid) = none :=
      findIdx?_none_of_all _ _ 0 hall
    rw [handleRetry.eq_def, hfind]
  · intro k msg hk hid hrole hfirst
    have hfind : st.messages.findIdx? (fun m => m.id == mid) = some k := by
      have h := findIdx?_from (fun m => m.id == mid) st.messages k msg 0 hk
        (by show (msg.id == mid) = true; rw [hid]; exact beq_self_eq_true mid) hfirst
      simpa using h
    simp only [handleRetry.eq_def, hfind, hk]
    rw [if_neg (by simp [hrole])]

/-! ### Witnesses -/

/-- C1 witness at a concrete exchange with two fragments and one citation batch. -/
theorem c1_stream_assembly_concat_witness :
    ∃ m : ChatMessage,
      (runExchange demoIdleState "help me" 2000 demoFragments .success none).messages.getLast?
        = some m ∧
      m.text = concatTexts demoFragments ∧
      m.groundingChunks.getD [] = concatChunks demoFragments ∧
      m.role = .model ∧ m.isStreaming = false ∧ m.hasError = false :=
  c1_stream_assembly_concat demoIdleState "help me" 2000 demoFragments
    (by decide) rfl (by decide)

/-- C2 witness: a streaming message containing two numbered question lines
still does not trigger multi-question mode. -/
theorem c2_multi_question_mode_witness : hasMultiQ demoStreamingMsg = false :=
  c2_multi_question_mode.2.1 demoStreamingMsg rfl

/-- C3 witness: the matched line `1. Hi` with its 2-character label yields no
option. -/
theorem c3_option_extraction_witness : optionOfLine "1. Hi".data = none :=
  c3_option_extraction.2.1 "1. Hi".data "1".data "Hi".data (by decide) (Or.inl (by decide))

/-- C5 witness: a finalized assistant message meeting every condition yields
exactly the four suggestions in order. -/
theorem c5_quick_replies_witness :
    getQuickReplies [demoQuickMsg] false = [yesOpt, noOpt, moreOpt, helpOpt] :=
  c5_quick_replies.2.2.2.2.1 [demoQuickMsg] demoQuickMsg rfl rfl rfl
    (by decide) (by decide) (by decide)

/-- C6 witness: a second submission 500ms after an accepted one is a no-op. -/
theorem c6_submission_guard_witness :
    runExchange (runExchange demoIdleState "hi there" 2000 [] .success none)
        "again" 2500 [] .success none
      = runExchange demoIdleState "hi there" 2000 [] .success none :=
  c6_submission_guard.2.2 demoIdleState "hi there" 2000 [] .success none
    "again" 2500 [] .success none (by decide) rfl (by decide) (by decide)

/-- C7 witness: a stream failing before any fragment leaves the fallback text. -/
theorem c7_stream_failure_witness :
    ∃ m : ChatMessage,
      (runExchange demoIdleState "help" 2000 [] (.failure "boom") none).messages.getLast?
        = some m ∧
      m.hasError = true ∧ m.isStreaming = false ∧
      (concatTexts [] = "" → m.text = bubbleFallback ∧ bubbleFallback ≠ "") ∧
      (concatTexts [] ≠ "" → m.text = concatTexts ([] : List Fragment)) :=
  c7_stream_failure demoIdleState "help" 2000 [] "boom" (by decide) rfl (by decide)

/-- C8 witness: retrying the user message at index 2 of a three-message
conversation truncates to the first two messages. -/
theorem c8_retry_truncates_witness :
    handleRetry demoRetryState "u2" =
      { demoRetryState with messages := demoRetryState.messages.take 2,
                            inputText := demoUserMsg2.text, error := none } :=
  c8_retry_truncates demoRetryState "u2" 2 demoUserMsg2 (by decide) rfl rfl (by decide)

/-- C9 witness (amended claim): a mounted successful exchange clears both
flags. -/
theorem c9_exit_paths_witness :
    (runExchange demoIdleState "hi there" 2000 [] .success none).isProcessing = false ∧
    ((runExchange demoIdleState "hi there" 2000 [] .success none).messages.getLast?.map
      (fun m => m.isStreaming)) = some false :=
  (c9_exit_paths demoIdleState "hi there" 2000 [] .success none
    (by decide) rfl (by decide)).1 rfl

/-- C10 witness: retrying the assistant message `a1` changes nothing. -/
theorem c10_retry_foreign_noop_witness : handleRetry demoRetryState "a1" = demoRetryState :=
  (c10_retry_foreign_noop demoRetryState "a1").2 1 demoModelMsg (by decide) rfl rfl (by decide)
